import Mathlib

/-!
Verification of the jsmai help-desk assistant (Forge resolver backend
src/src/index.js and the portal chat UI src/static/portal-ui/src/App.js).
Storage reads and Jira REST calls are external effects; they enter the
shallow embedding as explicit arguments (stored values, fetch oracles).
-/

namespace Jsmai

/-! Kernel-computable embeddings of the JavaScript string built-ins the code
uses (String.prototype.trim / toLowerCase / toUpperCase / split(",")),
defined by structural recursion over the character list so that concrete
instances evaluate inside proofs. Like the originals they are ASCII-faithful
on the inputs relevant here. -/

/-- JavaScript String.prototype.trim. -/
def jsTrim (s : String) : String :=
  String.mk (((s.toList.dropWhile Char.isWhitespace).reverse.dropWhile
    Char.isWhitespace).reverse)

/-- JavaScript String.prototype.toLowerCase. -/
def jsToLower (s : String) : String :=
  String.mk (s.toList.map Char.toLower)

/-- JavaScript String.prototype.toUpperCase. -/
def jsToUpper (s : String) : String :=
  String.mk (s.toList.map Char.toUpper)

/-- Splits a character list at commas; split(",") of the empty string is a
singleton list holding the empty string, as in JavaScript. -/
def splitCommaList (cs : List Char) : List (List Char) :=
  match cs with
  | [] => [[]]
  | c :: rest =>
    let r := splitCommaList rest
    if c == ',' then [] :: r
    else
      match r with
      | [] => [[c]]
      | h :: t => (c :: h) :: t

/-- JavaScript String.prototype.split(","). -/
def jsSplitComma (s : String) : List String :=
  (splitCommaList s.toList).map String.mk

/-- Embeds normalizeProjectId (src/src/index.js): null/undefined maps to null,
otherwise the value is stringified and trimmed, and an empty trim result maps
back to null. -/
def normalizeProjectId (projectId : Option String) : Option String :=
  match projectId with
  | none => none
  | some s =>
    let normalized := jsTrim s
    if normalized = "" then none else some normalized

/-- Outcome of one Jira REST call as observed by resolveProjectIdFromContext:
a successful HTTP response carrying the raw project-id candidate read from the
response body (none when the body holds no such value), a non-ok HTTP status,
or a thrown network error. -/
inductive FetchOutcome where
  | success (candidate : Option String)
  | httpError
  | networkFailure
deriving DecidableEq

/-- Embeds resolveProjectIdFromContext (src/src/index.js lines 55-103).
The two Jira lookups are passed in as oracles mapping the requested id/key to
the observed outcome. The portal step falls through on a non-ok response, a
thrown error, or a body whose candidate normalizes to null; the key step
returns null in those cases (nothing follows it). The key branch guard is the
raw JS truthiness test on projectKey, so only null and the empty string skip
the fetch. -/
def resolveProjectIdFromContext (projectId projectKey portalId : Option String)
    (portalFetch : String → FetchOutcome) (projectKeyFetch : String → FetchOutcome) :
    Option String :=
  match normalizeProjectId projectId with
  | some normalizedProjectId => some normalizedProjectId
  | none =>
    match (match normalizeProjectId portalId with
           | some normalizedPortalId =>
             match portalFetch normalizedPortalId with
             | .success candidate => normalizeProjectId candidate
             | .httpError => none
             | .networkFailure => none
           | none => none) with
    | some portalProjectId => some portalProjectId
    | none =>
      match projectKey with
      | none => none
      | some key =>
        if key = "" then none
        else
          match projectKeyFetch key with
          | .success candidate => normalizeProjectId candidate
          | .httpError => none
          | .networkFailure => none

/-- Reason strings returned by getPortalChatAvailability. -/
inductive AvailabilityReason where
  | disabled_by_admin
  | missing_project_context
  | disabled_for_project
deriving DecidableEq

/-- Shape of the object returned by getPortalChatAvailability. A missing
projectId field (disabled_by_admin case) and an explicit null projectId are
both modelled as none; a missing reason field is modelled as none. -/
structure AvailabilityDecision where
  enabled : Bool
  reason : Option AvailabilityReason
  projectId : Option String
deriving DecidableEq

/-- Embeds getPortalChatAvailability (src/src/index.js lines 109-134).
hasExplicitGlobalFlag is hasOwnProperty(agentSettings, "enableChatbot") on the
stored agent settings and enableChatbot its truthiness; projectChatSettings is
the truthiness of the per-project enablement map at a given key. -/
def getPortalChatAvailability
    (hasExplicitGlobalFlag : Bool) (enableChatbot : Bool)
    (projectChatSettings : String → Bool)
    (projectId projectKey portalId : Option String)
    (portalFetch projectKeyFetch : String → FetchOutcome) : AvailabilityDecision :=
  if hasExplicitGlobalFlag && !enableChatbot then
    { enabled := false, reason := some .disabled_by_admin, projectId := none }
  else
    match resolveProjectIdFromContext projectId projectKey portalId portalFetch projectKeyFetch with
    | none =>
      { enabled := true, reason := some .missing_project_context, projectId := none }
    | some resolvedProjectId =>
      if !projectChatSettings resolvedProjectId then
        { enabled := false, reason := some .disabled_for_project,
          projectId := some resolvedProjectId }
      else
        { enabled := true, reason := none, projectId := some resolvedProjectId }

/-! Rate limiter (src/src/index.js lines 665-701). -/

/-- Fixed window length in milliseconds (PORTAL_CHAT_RATE_LIMIT_WINDOW_MS). -/
def PORTAL_CHAT_RATE_LIMIT_WINDOW_MS : Int := 60 * 1000

/-- Maximum admitted requests per window (PORTAL_CHAT_RATE_LIMIT_MAX_REQUESTS). -/
def PORTAL_CHAT_RATE_LIMIT_MAX_REQUESTS : Int := 20

/-- Stored per-requester window state; absence of the storage entry (or of its
fields, which the code coerces with Number(x || 0)) is modelled by the
surrounding Option. -/
structure RateWindow where
  windowStart : Int
  count : Int
deriving DecidableEq

/-- Result of one admit call: the returned flags plus the storage state left
behind by the call (the stored field). -/
structure RateLimitDecision where
  allowed : Bool
  retryAfterSeconds : Option Nat
  stored : Option RateWindow
deriving DecidableEq

/-- Embeds checkPortalChatRateLimit (src/src/index.js lines 665-701) for one
requester bucket. storageOk models whether the storage read/write inside the
try block succeeds; when it is false the catch branch allows the request
(fail open) and the stored state is left as it was. -/
def checkPortalChatRateLimit (storageOk : Bool) (existing : Option RateWindow)
    (now : Int) : RateLimitDecision :=
  if !storageOk then
    { allowed := true, retryAfterSeconds := none, stored := existing }
  else
    let windowStart : Int := match existing with | none => 0 | some w => w.windowStart
    let count : Int := match existing with | none => 0 | some w => w.count
    if windowStart == 0 || now - windowStart ≥ PORTAL_CHAT_RATE_LIMIT_WINDOW_MS then
      { allowed := true, retryAfterSeconds := none, stored := some ⟨now, 1⟩ }
    else if count ≥ PORTAL_CHAT_RATE_LIMIT_MAX_REQUESTS then
      let retryAfterMs : Int := max 0 (PORTAL_CHAT_RATE_LIMIT_WINDOW_MS - (now - windowStart))
      { allowed := false,
        retryAfterSeconds := some (max 1 ((retryAfterMs.toNat + 999) / 1000)),
        stored := existing }
    else
      { allowed := true, retryAfterSeconds := none, stored := some ⟨windowStart, count + 1⟩ }

/-- Runs a sequence of admit calls for one requester, threading the stored
window state, and collects the allowed flags in call order. -/
def runRateCalls (times : List Int) (st : Option RateWindow) :
    List Bool × Option RateWindow :=
  match times with
  | [] => ([], st)
  | t :: ts =>
    let d := checkPortalChatRateLimit true st t
    let rest := runRateCalls ts d.stored
    (d.allowed :: rest.1, rest.2)

/-! Deterministic issue-key extraction (src/src/index.js lines 1235-1247).
ISSUE_KEY_REGEX is the global regex \b([A-Z][A-Z0-9]+-\d+)\b applied to the
upper-cased message. The matcher below implements exactly that pattern over
the character list: for this pattern greedy repetition needs no backtracking,
because [A-Z0-9]+ must be followed by the hyphen (not an [A-Z0-9] character)
and \d+ must be followed by a non-word character or the end of the string. -/

/-- JavaScript word character \w = [A-Za-z0-9_], used by the \b assertion. -/
def isJsWordChar (c : Char) : Bool :=
  ('A' ≤ c && c ≤ 'Z') || ('a' ≤ c && c ≤ 'z') || ('0' ≤ c && c ≤ '9') || c == '_'

/-- Character class [A-Z]. -/
def isUpperAZ (c : Char) : Bool := 'A' ≤ c && c ≤ 'Z'

/-- Character class [A-Z0-9]. -/
def isKeyChar (c : Char) : Bool := isUpperAZ c || ('0' ≤ c && c ≤ '9')

/-- Character class \d = [0-9]. -/
def isDigit09 (c : Char) : Bool := '0' ≤ c && c ≤ '9'

/-- Attempts to match \b[A-Z][A-Z0-9]+-\d+\b at the head of cs, where
prevIsWord tells whether the character just before cs is a word character
(false at the start of the string). Returns the matched token and the rest
of the input after it. -/
def tryMatchKey (prevIsWord : Bool) (cs : List Char) : Option (List Char × List Char) :=
  match cs with
  | [] => none
  | c :: rest =>
    if prevIsWord then none
    else if !isUpperAZ c then none
    else
      let letters := rest.takeWhile isKeyChar
      let afterLetters := rest.dropWhile isKeyChar
      if letters.isEmpty then none
      else
        match afterLetters with
        | '-' :: afterHyphen =>
          let digits := afterHyphen.takeWhile isDigit09
          let afterDigits := afterHyphen.dropWhile isDigit09
          if digits.isEmpty then none
          else
            match afterDigits with
            | [] => some (c :: letters ++ '-' :: digits, [])
            | d :: _ =>
              if isJsWordChar d then none
              else some (c :: letters ++ '-' :: digits, afterDigits)
        | _ => none

/-- Scans the input left to right like a global regex: attempt a match at the
current position; on success emit it and continue right after it (the last
matched character is a digit, hence a word character), otherwise advance one
character. The fuel argument only bounds recursion; one unit is spent per
step and every step consumes at least one character, so fuel = length of the
input is always enough. -/
def scanIssueKeysAux : Nat → Bool → List Char → List (List Char)
  | 0, _, _ => []
  | Nat.succ fuel, prevIsWord, cs =>
    match tryMatchKey prevIsWord cs with
    | some (tok, rest) => tok :: scanIssueKeysAux fuel true rest
    | none =>
      match cs with
      | [] => []
      | c :: rest => scanIssueKeysAux fuel (isJsWordChar c) rest

/-- List of ISSUE_KEY_REGEX matches in the upper-cased message, in match
order, with multiplicity (the value of normalizedMessage.match(...) || []). -/
def issueKeyTokens (message : String) : List String :=
  let cs := (jsToUpper message).toList
  (scanIssueKeysAux cs.length false cs).map (fun t => String.mk t)

/-- Order-preserving de-duplication keeping first occurrences, the semantics
of JavaScript [...new Set(list)] insertion order. -/
def dedupFirst (l : List String) : List String :=
  l.foldl (fun acc s => if s ∈ acc then acc else acc ++ [s]) []

/-- Embeds extractIssueKeysFromMessage (src/src/index.js lines 1243-1247):
upper-case the message, collect all regex matches, de-duplicate preserving
insertion order. -/
def extractIssueKeysFromMessage (message : String) : List String :=
  dedupFirst (issueKeyTokens message)

/-! Schema normalizer (src/src/index.js lines 303-479). -/

/-- JavaScript truthy-or fallback for strings: x || b, where x may be absent. -/
def jsOrS (x : Option String) (b : String) : String :=
  match x with
  | some s => if s == "" then b else s
  | none => b

/-- Raw valid-value option object as read by normalizeValidValueOption; every
field is none when absent (undefined or null). -/
structure RawOptionObj where
  label : Option String := none
  name : Option String := none
  value : Option String := none
  displayName : Option String := none
  title : Option String := none
  id : Option String := none
  key : Option String := none
  accountId : Option String := none
deriving DecidableEq

/-- Raw entry of a validValues array: null, a non-object scalar (already
stringified), or an option object. -/
inductive RawOptionVal where
  | nullO
  | scalarO (s : String)
  | objO (o : RawOptionObj)
deriving DecidableEq

/-- Normalized option shape produced by normalizeValidValueOption. -/
structure ValidValueOption where
  label : String
  id : Option String := none
  value : Option String := none
  accountId : Option String := none
deriving DecidableEq

/-- Embeds normalizeValidValueOption (src/src/index.js lines 325-360). The
label is the first non-nullish of label/name/value/displayName/title, and the
whole option is dropped when that is still nullish or empty; value falls back
to key via the same non-nullish test. -/
def normalizeValidValueOption (option : RawOptionVal) : Option ValidValueOption :=
  match option with
  | .nullO => none
  | .scalarO s => some { label := s, value := some s }
  | .objO o =>
    let label :=
      match o.label with
      | some l => some l
      | none =>
        match o.name with
        | some l => some l
        | none =>
          match o.value with
          | some l => some l
          | none =>
            match o.displayName with
            | some l => some l
            | none => o.title
    match label with
    | none => none
    | some lbl =>
      if lbl == "" then none
      else
        some { label := lbl,
               id := o.id,
               value := (match o.value with | some v => some v | none => o.key),
               accountId := o.accountId }

/-- Raw jiraSchema object; fields none when absent. -/
structure RawSchema where
  type : Option String := none
  system : Option String := none
  custom : Option String := none
  items : Option String := none
deriving DecidableEq

/-- Normalized jiraSchema with empty-string defaults. -/
structure NormSchema where
  type : String := ""
  system : String := ""
  custom : String := ""
  items : String := ""
deriving DecidableEq

/-- Raw request-type field object as read by the normalizer. validValues is
none when the property is absent or not an array. -/
structure RawField where
  fieldId : Option String := none
  name : Option String := none
  description : Option String := none
  required : Bool := false
  visible : Option Bool := none
  validValues : Option (List RawOptionVal) := none
  jiraSchema : Option RawSchema := none
deriving DecidableEq

/-- inputType values of a normalized field. -/
inductive PortalInputType where
  | text
  | textarea
  | number
  | date
  | datetime
  | select
  | multi_select
deriving DecidableEq

/-- Embeds inferPortalFieldInputType (src/src/index.js lines 303-323). -/
def inferPortalFieldInputType (field : RawField) : PortalInputType :=
  let schema := field.jiraSchema.getD {}
  let hasOptions := match field.validValues with
    | some vs => decide (vs.length > 0)
    | none => false
  if hasOptions then
    if schema.type == some "array" then .multi_select else .select
  else if schema.type == some "number" then .number
  else if schema.type == some "date" then .date
  else if schema.type == some "datetime" then .datetime
  else if field.fieldId == some "description" then .textarea
  else .text

/-- Normalized field descriptor produced by normalizePortalField. -/
structure PortalField where
  fieldId : String := ""
  name : String := ""
  description : String := ""
  required : Bool := false
  visible : Bool := true
  inputType : PortalInputType := .text
  validValues : List ValidValueOption := []
  jiraSchema : NormSchema := {}
deriving DecidableEq

/-- Embeds normalizePortalField (src/src/index.js lines 362-386): options are
normalized, dropped when label-less, and capped at 100 entries. -/
def normalizePortalField (field : RawField) : PortalField :=
  let jiraSchema := field.jiraSchema.getD {}
  let options := match field.validValues with
    | some vs => (vs.filterMap normalizeValidValueOption).take 100
    | none => []
  { fieldId := jsOrS field.fieldId "",
    name := jsOrS field.name (jsOrS field.fieldId "Field"),
    description := jsOrS field.description "",
    required := field.required,
    visible := field.visible != some false,
    inputType := inferPortalFieldInputType field,
    validValues := options,
    jiraSchema := { type := jsOrS jiraSchema.type "",
                    system := jsOrS jiraSchema.system "",
                    custom := jsOrS jiraSchema.custom "",
                    items := jsOrS jiraSchema.items "" } }

/-- Object argument of normalizeOptionPayload: the accountId/id/value/name/
label properties it reads, none when absent. -/
structure PayloadSource where
  accountId : Option String := none
  id : Option String := none
  value : Option String := none
  name : Option String := none
  label : Option String := none
deriving DecidableEq

/-- View of a normalized valid-value option as a normalizeOptionPayload
argument (the object literally passed to it in the source). -/
def ValidValueOption.toPayloadSource (o : ValidValueOption) : PayloadSource :=
  { accountId := o.accountId, id := o.id, value := o.value, label := some o.label }

/-- Value present and non-empty: the test option.x !== undefined && !== null
&& !== "" (and, for accountId, plain truthiness, which agrees on strings). -/
def isPresent (x : Option String) : Bool :=
  match x with
  | some s => s != ""
  | none => false

/-- Single-property wire object emitted by normalizeOptionPayload, or the
original object passed through when no property qualifies. -/
inductive OptionPayload where
  | byAccountId (s : String)
  | byId (s : String)
  | byValue (s : String)
  | byName (s : String)
  | passthrough (o : PayloadSource)
deriving DecidableEq

/-- Embeds normalizeOptionPayload (src/src/index.js lines 388-408) on object
input; the label branch emits a value-keyed object. -/
def normalizeOptionPayload (option : PayloadSource) : OptionPayload :=
  if isPresent option.accountId then .byAccountId (option.accountId.getD "")
  else if isPresent option.id then .byId (option.id.getD "")
  else if isPresent option.value then .byValue (option.value.getD "")
  else if isPresent option.name then .byName (option.name.getD "")
  else if isPresent option.label then .byValue (option.label.getD "")
  else .passthrough option

/-- Embeds matchValidValueOption (src/src/index.js lines 410-430): first
option whose lower-cased trimmed label, id, value, or 1-based position equals
the lower-cased trimmed answer. -/
def matchValidValueOption (validValues : List ValidValueOption) (answerText : String) :
    Option ValidValueOption :=
  let normalizedAnswer := jsToLower (jsTrim answerText)
  if normalizedAnswer == "" then none
  else
    (validValues.enum.find? (fun p =>
      let label := jsToLower (jsTrim p.2.label)
      let id := jsToLower (jsTrim (p.2.id.getD ""))
      let value := jsToLower (jsTrim (p.2.value.getD ""))
      let numericIndex := toString (p.1 + 1)
      normalizedAnswer == label || normalizedAnswer == id ||
      normalizedAnswer == value || normalizedAnswer == numericIndex)).map (fun p => p.2)

/-- Answer value passed to convertFieldAnswerToRequestValue: absent, null, an
option-shaped object, an array of entries, or a scalar (stringified). -/
inductive FieldAnswer where
  | undef
  | nullA
  | objA (o : PayloadSource)
  | arrA (items : List (Option PayloadSource))
  | strA (s : String)
deriving DecidableEq

/-- Wire value produced by convertFieldAnswerToRequestValue. -/
inductive RequestValue where
  | strV (s : String)
  | numV (n : Int)
  | payloadV (p : OptionPayload)
  | arrV (l : List RequestValue)

/-- Array entries: null entries are dropped by the filter after
normalizeOptionPayload (it returns them unchanged), objects are normalized. -/
def convertArrayItem (item : Option PayloadSource) : Option RequestValue :=
  match item with
  | none => none
  | some o => some (.payloadV (normalizeOptionPayload o))

/-- Embeds convertFieldAnswerToRequestValue (src/src/index.js lines 432-479).
jsNumberOfString is the oracle for the built-in Number(): some n when the
parse is finite, none when it yields NaN or an infinity. -/
def convertFieldAnswerToRequestValue (jsNumberOfString : String → Option Int)
    (field : PortalField) (answer : FieldAnswer) : Option RequestValue :=
  match answer with
  | .undef => none
  | .nullA => none
  | .arrA items => some (.arrV (items.filterMap convertArrayItem))
  | .objA o =>
    let normalizedObject := normalizeOptionPayload o
    if field.jiraSchema.type == "array" then some (.arrV [.payloadV normalizedObject])
    else some (.payloadV normalizedObject)
  | .strA s =>
    let normalizedAnswer := jsTrim s
    if normalizedAnswer == "" then none
    else
      match (if field.validValues.length > 0 then
               matchValidValueOption field.validValues normalizedAnswer
             else none) with
      | some matchedOption =>
        let normalizedOption := normalizeOptionPayload matchedOption.toPayloadSource
        if field.jiraSchema.type == "array" then some (.arrV [.payloadV normalizedOption])
        else some (.payloadV normalizedOption)
      | none =>
        if field.jiraSchema.type == "number" then
          match jsNumberOfString normalizedAnswer with
          | some numericValue => some (.numV numericValue)
          | none => some (.strV normalizedAnswer)
        else if field.jiraSchema.type == "array" then
          some (.arrV (((jsSplitComma normalizedAnswer).map (fun v => jsTrim v)).filter
            (fun v => v != "") |>.map .strV))
        else some (.strV normalizedAnswer)

/-! LLM credential handling (src/src/index.js lines 481-575). -/

/-- Embeds maskApiKey (src/src/index.js lines 481-490): empty after trimming
maps to empty; length at most 8 keeps the first 2 characters and pads the
rest with asterisks; longer keys expose the first 4 and last 4 characters
around a three-dot ellipsis. -/
def maskApiKey (apiKey : String) : String :=
  let cs := (jsTrim apiKey).toList
  if cs.isEmpty then ""
  else if cs.length ≤ 8 then
    String.mk (cs.take 2 ++ List.replicate (cs.length - 2) '*')
  else
    String.mk (cs.take 4 ++ ['.', '.', '.'] ++ cs.drop (cs.length - 4))

/-- Runtime LLM settings assembled by getLlmRuntimeSettings. -/
structure LlmRuntimeSettings where
  provider : String := "openai"
  model : String := ""
  apiKey : String := ""
deriving DecidableEq

/-- Embeds getLlmRuntimeSettings (src/src/index.js lines 510-524) from the
stored non-secret record and the secret key (none when absent or not a
string). The legacy-key migration only moves storage around and is not
modelled. -/
def getLlmRuntimeSettings (storedProvider storedModel apiKeySecret : Option String) :
    LlmRuntimeSettings :=
  { provider := if storedProvider == some "openai" || storedProvider == some "claude"
                then storedProvider.getD "" else "openai",
    model := storedModel.getD "",
    apiKey := jsTrim (apiKeySecret.getD "") }

/-- Response of the getLLMSettings resolver. -/
structure AdminLlmSettings where
  provider : String
  model : String
  apiKey : String
  apiKeyMasked : String
  hasApiKey : Bool
deriving DecidableEq

/-- Embeds getLlmSettingsForAdmin (src/src/index.js lines 526-537): both
apiKey and apiKeyMasked carry the masked form of the runtime key. -/
def getLlmSettingsForAdmin (runtimeSettings : LlmRuntimeSettings) : AdminLlmSettings :=
  let apiKeyMasked := maskApiKey runtimeSettings.apiKey
  { provider := jsOrS (some runtimeSettings.provider) "openai",
    model := jsOrS (some runtimeSettings.model) "",
    apiKey := apiKeyMasked,
    apiKeyMasked := apiKeyMasked,
    hasApiKey := runtimeSettings.apiKey != "" }

/-- Result of saveLlmSettingsSecurely: a validation error, or success carrying
the non-secret record written to plain storage, the key written to secret
storage (none when the write is skipped and the stored secret is untouched),
and the response fields. -/
inductive SaveLlmOutcome where
  | errorOut (message : String)
  | savedOut (settingsWritten : String × String) (secretWritten : Option String)
      (provider model apiKeyMasked : String)
deriving DecidableEq

/-- Embeds saveLlmSettingsSecurely (src/src/index.js lines 539-575). apiKey is
none when the payload value is not a string. -/
def saveLlmSettingsSecurely (runtimeSettings : LlmRuntimeSettings)
    (provider model : String) (apiKey : Option String) : SaveLlmOutcome :=
  if provider == "" || !(provider == "openai" || provider == "claude") then
    .errorOut "Invalid provider. Must be \x27openai\x27 or \x27claude\x27."
  else if model == "" then
    .errorOut "Model is required."
  else
    let submittedApiKey := jsTrim (apiKey.getD "")
    let existingMaskedApiKey := maskApiKey runtimeSettings.apiKey
    let shouldKeepExistingApiKey :=
      runtimeSettings.apiKey != "" &&
      (submittedApiKey == "" || submittedApiKey == existingMaskedApiKey)
    let nextApiKey := if shouldKeepExistingApiKey then runtimeSettings.apiKey
                      else submittedApiKey
    if nextApiKey == "" then .errorOut "API key is required."
    else
      .savedOut (provider, model)
        (if !shouldKeepExistingApiKey || runtimeSettings.apiKey == ""
         then some nextApiKey else none)
        provider model (maskApiKey nextApiKey)

/-! Request submission with attachment fallback (src/src/index.js lines
991-1128, resolver createPortalRequest). The two createAttempt calls and the
post-creation attach call are HTTP effects; their observed outcomes are
passed in. -/

/-- Parsed JSON body of a create-request response; defaults model absent
properties. -/
structure ParsedCreateBody where
  errorMessages : List String := []
  fieldErrors : List (String × String) := []
  issueKey : String := ""
  issueId : String := ""
  webLink : String := ""
  selfLink : String := ""
deriving DecidableEq

/-- Observed result of one createAttempt call. -/
structure CreateAttemptRes where
  ok : Bool
  status : Int := 0
  rawText : String := ""
  parsedBody : Option ParsedCreateBody := none
deriving DecidableEq

/-- Embeds formatCreateError (src/src/index.js lines 1015-1032). -/
def formatCreateError (attempt : CreateAttemptRes) : String :=
  let errorMessages := match attempt.parsedBody with
    | some p => p.errorMessages.filter (fun m => m != "")
    | none => []
  let fieldErrors := match attempt.parsedBody with
    | some p => (p.fieldErrors.map (fun fe => fe.1 ++ ": " ++ fe.2)).filter (fun m => m != "")
    | none => []
  let detail := String.intercalate "; " (errorMessages ++ fieldErrors)
  if detail != "" then
    "Failed to create request: " ++ toString attempt.status ++ " — " ++ detail
  else
    "Failed to create request: " ++ toString attempt.status ++ " — " ++
      (if attempt.rawText != "" then attempt.rawText else "Unknown error")

/-- Observed outcome of the post-creation attachment call; for the non-ok
HTTP case, details is the attachDetails string the code assembles from the
response body (the joined structured errors when they parse, the raw text
otherwise). -/
inductive AttachOutcome where
  | attachOk
  | attachHttpError (status : Int) (details : String)
  | attachThrew (message : String)
deriving DecidableEq

/-- Result of the createPortalRequest resolver. -/
inductive CreatePortalResult where
  | errorRes (message : String)
  | successRes (issueKey issueId requestLink warning : String)
deriving DecidableEq

/-- Embeds the submission tail of createPortalRequest (src/src/index.js lines
1034-1124): try with attachment ids, retry once without them on failure,
best-effort attach afterwards, surface attach failures as a warning on the
success result. -/
def createPortalRequestSubmit (attachmentIdsForPayload : List String)
    (firstAttempt fallbackAttempt : CreateAttemptRes) (attach : AttachOutcome) :
    CreatePortalResult :=
  let adopted :=
    if !firstAttempt.ok && attachmentIdsForPayload.length > 0 && fallbackAttempt.ok then
      (fallbackAttempt, true,
        "Request created, but the selected request type did not accept attachments in this submission.")
    else (firstAttempt, false, "")
  let finalAttempt := adopted.1
  let createdWithoutAttachmentPayload := adopted.2.1
  let initialWarning := adopted.2.2
  if !finalAttempt.ok then .errorRes (formatCreateError finalAttempt)
  else
    let createdRequest := finalAttempt.parsedBody.getD {}
    let createdIssueIdOrKey :=
      if createdRequest.issueKey != "" then createdRequest.issueKey else createdRequest.issueId
    let attachmentWarning :=
      if createdWithoutAttachmentPayload && attachmentIdsForPayload.length > 0 &&
          createdIssueIdOrKey != "" then
        match attach with
        | .attachOk => ""
        | .attachHttpError status details =>
          "Request created, but attachments could not be added after creation (" ++
            toString status ++ " — " ++
            (if details != "" then details else "Unknown attachment error") ++ ")."
        | .attachThrew message =>
          "Request created, but attachments could not be added after creation (" ++
            message ++ ")."
      else initialWarning
    .successRes createdRequest.issueKey createdRequest.issueId
      (if createdRequest.webLink != "" then createdRequest.webLink else createdRequest.selfLink)
      attachmentWarning

/-! Portal chat UI dialogue helpers (src/static/portal-ui/src/App.js). -/

/-- Embeds normalizeText (App.js lines 924-926): String(value || "") then
trim then toLowerCase; absent values map to the empty string. -/
def normalizeText (value : Option String) : String :=
  jsToLower (jsTrim (value.getD ""))

/-- Characterizes the numeric guard of findItemByUserInput: with
n = Number.parseInt(s, 10), the test Number.isFinite(n) && String(n) === s
holds exactly when s is the canonical decimal form of an integer; the branch
additionally requires n >= 1, and negative canonical inputs fail that bound
and fall through to the name scan exactly as non-numeric inputs do, so only
canonical naturals need representing. -/
def decToNat? (s : String) : Option Nat :=
  let cs := s.toList
  if cs.isEmpty then none
  else if !(cs.all isDigit09) then none
  else if decide (cs.length > 1) && (cs.headD ' ' == '0') then none
  else some (cs.foldl (fun n c => n * 10 + (c.toNat - 48)) 0)

/-- JavaScript String.prototype.includes on the character lists. -/
def strIncludes (hay needle : String) : Bool :=
  (hay.toList.tails).any (fun t => needle.toList.isPrefixOf t)

/-- Name-matching test of one item inside findItemByUserInput: some built
token, normalized and non-empty, equals or contains the normalized input. -/
def tokenMatchesInput (normalizedInput : String) (tokens : List (Option String)) : Bool :=
  (((tokens.map normalizeText).filter (fun t => t != ""))).any
    (fun token => token == normalizedInput || strIncludes token normalizedInput)

/-- Embeds findItemByUserInput (App.js lines 928-955). tokenBuilder receives
the item and its index and yields the raw token values (absent entries are
none). The numeric branch intercepts only canonical in-range indices; every
other input reaches the left-to-right find over the token test. -/
def findItemByUserInput {α : Type} (items : List α) (userInput : String)
    (tokenBuilder : α → Nat → List (Option String)) : Option α :=
  let normalizedInput := normalizeText (some userInput)
  if normalizedInput == "" || items.isEmpty then none
  else
    let nameScan : Option α :=
      (items.enum.find? (fun p =>
        tokenMatchesInput normalizedInput (tokenBuilder p.2 p.1))).map (fun p => p.2)
    match decToNat? normalizedInput with
    | some numericIndex =>
      if 1 ≤ numericIndex && numericIndex ≤ items.length then items[numericIndex - 1]?
      else nameScan
    | none => nameScan

/-- Dialogue stages of the create-request flow. -/
inductive FlowStage where
  | idle
  | select_project
  | select_request_type
  | collect_fields
  | attachments
  | confirm
deriving DecidableEq

/-- Service desk summary as delivered to the UI. -/
structure ServiceDeskSummary where
  serviceDeskId : String := ""
  projectId : Option String := none
  projectKey : String := ""
  projectName : String := ""
  portalName : String := ""
deriving DecidableEq

/-- Request type summary as delivered to the UI. -/
structure RequestTypeSummary where
  id : String := ""
  name : String := ""
deriving DecidableEq

/-- Parsed answer stored by the collect_fields stage: the option object
built from a matched valid value, a finite number, or trimmed text. -/
inductive UiAnswer where
  | optionAns (id : Option String) (value : Option String) (label : String)
  | numAns (n : Int)
  | textAns (s : String)
deriving DecidableEq

/-- The createFlow state object (INITIAL_CREATE_FLOW shape, App.js lines
834-847); answers is the object map fieldId -> parsed answer. -/
structure CreateFlow where
  active : Bool := false
  stage : FlowStage := .idle
  projects : List ServiceDeskSummary := []
  requestTypes : List RequestTypeSummary := []
  selectedProject : Option ServiceDeskSummary := none
  selectedRequestType : Option RequestTypeSummary := none
  allowsAttachments : Bool := false
  fields : List PortalField := []
  currentFieldIndex : Nat := 0
  answers : List (String × UiAnswer) := []
  temporaryAttachmentIds : List String := []
  attachmentNames : List String := []
deriving DecidableEq

/-- One quick-reply option attached to a bot message. -/
structure UiMessageOption where
  label : String
  value : Option String := none
  action : Option String := none
deriving DecidableEq

/-- One bot message appended by appendBotMessage; a call without options is
modelled with the empty list. -/
structure BotMessage where
  content : String
  options : List UiMessageOption := []
deriving DecidableEq

/-- Embeds buildFieldOptions (App.js lines 971-980): at most 12 options,
labelled with their 1-based position, valued by id || value || label. -/
def buildFieldOptions (field : PortalField) : List UiMessageOption :=
  if field.validValues.isEmpty then []
  else
    (field.validValues.take 12).enum.map (fun p =>
      { label := toString (p.1 + 1) ++ ". " ++ p.2.label,
        value := some (jsOrS p.2.id (jsOrS p.2.value p.2.label)) })

/-- Embeds buildFieldPrompt (App.js lines 982-1002). -/
def buildFieldPrompt (field : PortalField) (index : Nat) (total : Nat) : String :=
  let headLine := "Field " ++ toString (index + 1) ++ " of " ++ toString total ++
    ": " ++ field.name
  let withDescription :=
    if field.description != "" then [headLine, field.description] else [headLine]
  let guidance :=
    if field.inputType == .select || field.inputType == .multi_select then
      "Choose an option below, or type the option name/number."
    else if field.inputType == .date then
      "Enter a date in YYYY-MM-DD format."
    else if field.inputType == .datetime then
      "Enter a date/time (for example: 2026-02-13T14:30:00.000+0000)."
    else if field.inputType == .number then
      "Enter a numeric value."
    else
      "Enter a value."
  String.intercalate "\n" (withDescription ++ [guidance])

/-- JSON.stringify of a stored option answer, the last fallback of
formatAnswerForSummary (reachable only when label, value and id are all
empty or absent; string escaping is not modelled). -/
def jsonStringifyOption (id value : Option String) (label : String) : String :=
  let parts :=
    (match id with | some s => ["\"id\":\"" ++ s ++ "\""] | none => []) ++
    (match value with | some s => ["\"value\":\"" ++ s ++ "\""] | none => []) ++
    ["\"label\":\"" ++ label ++ "\""]
  "\x7b" ++ String.intercalate "," parts ++ "\x7d"

/-- Embeds formatAnswerForSummary (App.js lines 1004-1018) on the answer
shapes the flow actually stores (missing answers render as empty; the array
branch is unreachable for flow-produced answers and is not modelled). -/
def formatAnswerForSummary (answer : Option UiAnswer) : String :=
  match answer with
  | none => ""
  | some (.textAns s) => s
  | some (.numAns n) => toString n
  | some (.optionAns id value label) =>
    if label != "" then label
    else if (value.getD "") != "" then value.getD ""
    else if (id.getD "") != "" then id.getD ""
    else jsonStringifyOption id value label

/-- Object-spread update answers = previous with fieldId set to the parsed
answer. -/
def setAnswer (answers : List (String × UiAnswer)) (fieldId : String) (a : UiAnswer) :
    List (String × UiAnswer) :=
  if answers.any (fun p => p.1 == fieldId) then
    answers.map (fun p => if p.1 == fieldId then (p.1, a) else p)
  else answers ++ [(fieldId, a)]

/-- Lookup flow.answers[fieldId]. -/
def lookupAnswer (answers : List (String × UiAnswer)) (fieldId : String) : Option UiAnswer :=
  (answers.find? (fun p => p.1 == fieldId)).map (fun p => p.2)

/-- Embeds moveToAttachmentStep (App.js lines 1113-1125): sets the stage and
returns the emitted bot message. -/
def moveToAttachmentStep (flow : CreateFlow) : CreateFlow × BotMessage :=
  ({ flow with stage := .attachments },
   { content := "You can add attachments now. Click Attach and pick files. When finished, type \"done\" (or type \"skip\").",
     options := [{ label := "Attach files", action := some "attach" },
                 { label := "Skip attachments", value := some "skip" },
                 { label := "Cancel", value := some "cancel" }] })

/-- Embeds moveToConfirmStep (App.js lines 1127-1152). -/
def moveToConfirmStep (flow : CreateFlow) : CreateFlow × BotMessage :=
  let answerLines := flow.fields.map (fun field =>
    "- " ++ field.name ++ ": " ++ formatAnswerForSummary (lookupAnswer flow.answers field.fieldId))
  let attachmentLine :=
    if !flow.allowsAttachments then "Attachments: not supported for this request type"
    else if decide (flow.attachmentNames.length > 0) then
      "Attachments: " ++ String.intercalate ", " flow.attachmentNames
    else "Attachments: none"
  let projectName := match flow.selectedProject with
    | some p => jsOrS (some p.projectName) ""
    | none => ""
  let requestTypeName := match flow.selectedRequestType with
    | some r => jsOrS (some r.name) ""
    | none => ""
  ({ flow with stage := .confirm },
   { content := "Please confirm the request details:\n" ++
       "Project: " ++ projectName ++ "\n" ++
       "Request type: " ++ requestTypeName ++ "\n" ++
       String.intercalate "\n" answerLines ++ "\n" ++ attachmentLine,
     options := [{ label := "Create request", value := some "create" },
                 { label := "Cancel", value := some "cancel" }] })

/-- Embeds askForCurrentField (App.js lines 1101-1111): no message when the
index is out of range. -/
def askForCurrentField (flow : CreateFlow) : List BotMessage :=
  match flow.fields[flow.currentFieldIndex]? with
  | none => []
  | some currentField =>
    [{ content := buildFieldPrompt currentField flow.currentFieldIndex flow.fields.length,
       options := buildFieldOptions currentField }]

/-- Advance after a valid answer (App.js lines 1375-1395): store the answer,
then move to the next field, or onward to attachments/confirm. -/
def advanceCollectFlow (createFlow : CreateFlow) (currentField : PortalField)
    (parsedAnswer : UiAnswer) : CreateFlow × List BotMessage :=
  let nextAnswers := setAnswer createFlow.answers currentField.fieldId parsedAnswer
  if createFlow.currentFieldIndex + 1 < createFlow.fields.length then
    let nextFlow := { createFlow with
      answers := nextAnswers,
      currentFieldIndex := createFlow.currentFieldIndex + 1 }
    (nextFlow, askForCurrentField nextFlow)
  else
    let completedFlow := { createFlow with answers := nextAnswers }
    if completedFlow.allowsAttachments then
      let r := moveToAttachmentStep completedFlow
      (r.1, [r.2])
    else
      let r := moveToConfirmStep completedFlow
      (r.1, [r.2])

/-- Embeds the collect_fields branch of handleCreateFlowInput (App.js lines
1323-1398): returns the flow state after the turn and the bot messages
emitted during it. jsNumberOfString is the oracle for the built-in
Number(text) finiteness test of the number branch. -/
def handleCollectFieldsInput (jsNumberOfString : String → Option Int)
    (createFlow : CreateFlow) (text : String) : CreateFlow × List BotMessage :=
  match createFlow.fields[createFlow.currentFieldIndex]? with
  | none =>
    if createFlow.allowsAttachments then
      let r := moveToAttachmentStep createFlow
      (r.1, [r.2])
    else
      let r := moveToConfirmStep createFlow
      (r.1, [r.2])
  | some currentField =>
    if currentField.inputType == .select || currentField.inputType == .multi_select ||
        decide (currentField.validValues.length > 0) then
      match findItemByUserInput currentField.validValues text
          (fun option _ => [some option.label, option.id, option.value]) with
      | none =>
        (createFlow,
         [{ content := "Please choose a valid option for " ++ currentField.name ++ ".",
            options := buildFieldOptions currentField }])
      | some matchedOption =>
        advanceCollectFlow createFlow currentField
          (.optionAns matchedOption.id matchedOption.value matchedOption.label)
    else if currentField.inputType == .number then
      match jsNumberOfString text with
      | none =>
        (createFlow,
         [{ content := "Please enter a numeric value for " ++ currentField.name ++ "." }])
      | some numericValue =>
        advanceCollectFlow createFlow currentField (.numAns numericValue)
    else
      let normalizedText := jsTrim text
      if normalizedText == "" then
        (createFlow,
         [{ content := "Please provide a value for " ++ currentField.name ++ "." }])
      else
        advanceCollectFlow createFlow currentField (.textAns normalizedText)

/-! Claim theorems. -/

/-- Helper: an observed fetch outcome contributes nothing to resolution:
either a failure, or a success whose candidate normalizes to null. -/
def fetchYieldsNothing (o : FetchOutcome) : Bool :=
  match o with
  | .success candidate => (normalizeProjectId candidate).isNone
  | .httpError => true
  | .networkFailure => true

/-- C1: getPortalChatAvailability evaluates its rules in a fixed order: an
explicit false enableChatbot flag yields enabled:false with reason
disabled_by_admin regardless of project context; otherwise an unresolvable
project yields enabled:true with reason missing_project_context and null
projectId; otherwise a resolved project missing from the enablement map
yields enabled:false with reason disabled_for_project and that project id;
otherwise enabled:true with the resolved project id. -/
theorem C1_availability_rule_order
    (hasFlag enable : Bool) (settings : String → Bool)
    (projectId projectKey portalId : Option String)
    (pf kf : String → FetchOutcome) :
    (hasFlag = true ∧ enable = false →
      getPortalChatAvailability hasFlag enable settings projectId projectKey portalId pf kf
        = { enabled := false, reason := some .disabled_by_admin, projectId := none })
    ∧ (¬(hasFlag = true ∧ enable = false) →
        resolveProjectIdFromContext projectId projectKey portalId pf kf = none →
        getPortalChatAvailability hasFlag enable settings projectId projectKey portalId pf kf
          = { enabled := true, reason := some .missing_project_context, projectId := none })
    ∧ (∀ pid, ¬(hasFlag = true ∧ enable = false) →
        resolveProjectIdFromContext projectId projectKey portalId pf kf = some pid →
        settings pid = false →
        getPortalChatAvailability hasFlag enable settings projectId projectKey portalId pf kf
          = { enabled := false, reason := some .disabled_for_project, projectId := some pid })
    ∧ (∀ pid, ¬(hasFlag = true ∧ enable = false) →
        resolveProjectIdFromContext projectId projectKey portalId pf kf = some pid →
        settings pid = true →
        getPortalChatAvailability hasFlag enable settings projectId projectKey portalId pf kf
          = { enabled := true, reason := none, projectId := some pid }) := by
  have hbool : ∀ (h : ¬(hasFlag = true ∧ enable = false)), (hasFlag && !enable) = false := by
    intro h
    cases hasFlag <;> cases enable <;> simp_all
  refine ⟨?_, ?_, ?_, ?_⟩
  · rintro ⟨h1, h2⟩
    subst h1; subst h2
    simp [getPortalChatAvailability]
  · intro h hres
    simp [getPortalChatAvailability, hbool h, hres]
  · intro pid h hres hset
    simp [getPortalChatAvailability, hbool h, hres, hset]
  · intro pid h hres hset
    simp [getPortalChatAvailability, hbool h, hres, hset]

/-- Concrete instantiations of C1_availability_rule_order, one per rule. -/
theorem C1_availability_witness :
    (getPortalChatAvailability true false (fun _ => true) (some "10") none none
        (fun _ => .httpError) (fun _ => .httpError)
      = { enabled := false, reason := some .disabled_by_admin, projectId := none })
    ∧ (getPortalChatAvailability true true (fun _ => true) none none none
        (fun _ => .httpError) (fun _ => .httpError)
      = { enabled := true, reason := some .missing_project_context, projectId := none })
    ∧ (getPortalChatAvailability false false (fun _ => false) (some "10") none none
        (fun _ => .httpError) (fun _ => .httpError)
      = { enabled := false, reason := some .disabled_for_project, projectId := some "10" })
    ∧ (getPortalChatAvailability true true (fun _ => true) (some " 10 ") none none
        (fun _ => .httpError) (fun _ => .httpError)
      = { enabled := true, reason := none, projectId := some "10" }) :=
  ⟨(C1_availability_rule_order true false (fun _ => true) (some "10") none none
      (fun _ => .httpError) (fun _ => .httpError)).1 ⟨rfl, rfl⟩,
   (C1_availability_rule_order true true (fun _ => true) none none none
      (fun _ => .httpError) (fun _ => .httpError)).2.1 (by simp) (by decide),
   (C1_availability_rule_order false false (fun _ => false) (some "10") none none
      (fun _ => .httpError) (fun _ => .httpError)).2.2.1 "10" (by simp) (by decide) rfl,
   (C1_availability_rule_order true true (fun _ => true) (some " 10 ") none none
      (fun _ => .httpError) (fun _ => .httpError)).2.2.2 "10" (by simp) (by decide) rfl⟩

/-- Helper: the value a resolution step reads off one observed fetch
outcome. -/
def fetchStepValue (o : FetchOutcome) : Option String :=
  match o with
  | .success candidate => normalizeProjectId candidate
  | .httpError => none
  | .networkFailure => none

/-- Helper: two fetch outcomes that are equal, or that both yield nothing,
contribute the same value to a resolution step. -/
theorem fetchStep_congr (f g : FetchOutcome)
    (h : f = g ∨ (fetchYieldsNothing f ∧ fetchYieldsNothing g)) :
    fetchStepValue f = fetchStepValue g := by
  rcases h with rfl | ⟨h1, h2⟩
  · rfl
  · cases f <;> cases g <;>
      simp_all [fetchStepValue, fetchYieldsNothing, Option.isNone_iff_eq_none]

/-- C8: resolveProjectIdFromContext tries its sources in a fixed order with
first success winning (trimmed projectId, else portal lookup, else key
search, else null), and a fetch failure is interchangeable with a fetch that
yields nothing, so resolution falls through instead of aborting. -/
theorem C8_context_resolution
    (projectId projectKey portalId : Option String)
    (pf kf pf2 kf2 : String → FetchOutcome) :
    (resolveProjectIdFromContext projectId projectKey portalId pf kf =
      ((normalizeProjectId projectId).orElse (fun _ =>
        (Option.orElse
          (match normalizeProjectId portalId with
           | some npid =>
             match pf npid with
             | .success candidate => normalizeProjectId candidate
             | .httpError => none
             | .networkFailure => none
           | none => none)
          (fun _ =>
            match projectKey with
            | none => none
            | some key =>
              if key = "" then none
              else
                match kf key with
                | .success candidate => normalizeProjectId candidate
                | .httpError => none
                | .networkFailure => none)))))
    ∧ (∀ s, normalizeProjectId (some s) =
        (if jsTrim s = "" then none else some (jsTrim s)))
    ∧ ((∀ x, pf x = pf2 x ∨ (fetchYieldsNothing (pf x) ∧ fetchYieldsNothing (pf2 x))) →
       (∀ x, kf x = kf2 x ∨ (fetchYieldsNothing (kf x) ∧ fetchYieldsNothing (kf2 x))) →
        resolveProjectIdFromContext projectId projectKey portalId pf kf =
          resolveProjectIdFromContext projectId projectKey portalId pf2 kf2) := by
  refine ⟨?_, fun s => rfl, ?_⟩
  · unfold resolveProjectIdFromContext
    cases normalizeProjectId projectId with
    | some n => rfl
    | none =>
      cases hA : (match normalizeProjectId portalId with
                  | some npid =>
                    match pf npid with
                    | FetchOutcome.success candidate => normalizeProjectId candidate
                    | FetchOutcome.httpError => none
                    | FetchOutcome.networkFailure => none
                  | none => (none : Option String)) with
      | some p => rfl
      | none => rfl
  · intro hpf hkf
    unfold resolveProjectIdFromContext
    cases normalizeProjectId projectId with
    | some n => rfl
    | none =>
      have hport :
          (match normalizeProjectId portalId with
           | some npid =>
             match pf npid with
             | FetchOutcome.success candidate => normalizeProjectId candidate
             | FetchOutcome.httpError => none
             | FetchOutcome.networkFailure => none
           | none => (none : Option String)) =
          (match normalizeProjectId portalId with
           | some npid =>
             match pf2 npid with
             | FetchOutcome.success candidate => normalizeProjectId candidate
             | FetchOutcome.httpError => none
             | FetchOutcome.networkFailure => none
           | none => (none : Option String)) := by
        cases normalizeProjectId portalId with
        | none => rfl
        | some npid => exact fetchStep_congr (pf npid) (pf2 npid) (hpf npid)
      rw [hport]
      cases hA : (match normalizeProjectId portalId with
                  | some npid =>
                    match pf2 npid with
                    | FetchOutcome.success candidate => normalizeProjectId candidate
                    | FetchOutcome.httpError => none
                    | FetchOutcome.networkFailure => none
                  | none => (none : Option String)) with
      | some p => rfl
      | none =>
        cases projectKey with
        | none => rfl
        | some key =>
          by_cases hk : key = ""
          · simp [hk]
          · simp only [if_neg hk]
            exact fetchStep_congr (kf key) (kf2 key) (hkf key)

/-- Concrete instantiation of C8_context_resolution: a failing portal fetch
is equivalent to one yielding nothing, so the key step decides. -/
theorem C8_context_resolution_witness :
    resolveProjectIdFromContext none (some "KEY") (some "7")
        (fun _ => .networkFailure) (fun _ => .success (some "42"))
      = resolveProjectIdFromContext none (some "KEY") (some "7")
        (fun _ => .success none) (fun _ => .success (some "42"))
    ∧ resolveProjectIdFromContext none (some "KEY") (some "7")
        (fun _ => .networkFailure) (fun _ => .success (some "42")) = some "42" :=
  ⟨(C8_context_resolution none (some "KEY") (some "7")
      (fun _ => .networkFailure) (fun _ => .success (some "42"))
      (fun _ => .success none) (fun _ => .success (some "42"))).2.2
      (fun x => Or.inr ⟨by decide, by decide⟩) (fun x => Or.inl rfl),
   by decide⟩

/-- Helper: runRateCalls distributes over list append. -/
theorem runRateCalls_append (as bs : List Int) (st : Option RateWindow) :
    runRateCalls (as ++ bs) st =
      ((runRateCalls as st).1 ++ (runRateCalls bs (runRateCalls as st).2).1,
        (runRateCalls bs (runRateCalls as st).2).2) := by
  induction as generalizing st with
  | nil => simp [runRateCalls]
  | cons a as ih =>
    simp only [List.cons_append, runRateCalls, List.append_eq, ih, List.cons_append]

/-- Helper: while the window is active (non-zero start, within 60 s) and has
room for all the calls, every call is admitted and only the count moves. -/
theorem runRateCalls_active (ts : List Int) (t0 : Int) (c : Int)
    (h0 : t0 ≠ 0) (hts : ∀ t ∈ ts, t - t0 < 60000) (hc : 0 < c)
    (hcount : c + ts.length ≤ 20) :
    runRateCalls ts (some ⟨t0, c⟩) =
      (List.replicate ts.length true, some ⟨t0, c + ts.length⟩) := by
  induction ts generalizing c with
  | nil => simp [runRateCalls]
  | cons t ts ih =>
    have hlt : t - t0 < 60000 := hts t (by simp)
    have hcount2 : c + (ts.length : Int) + 1 ≤ 20 := by
      simp only [List.length_cons] at hcount
      push_cast at hcount
      omega
    have hstep : checkPortalChatRateLimit true (some ⟨t0, c⟩) t =
        { allowed := true, retryAfterSeconds := none, stored := some ⟨t0, c + 1⟩ } := by
      simp only [checkPortalChatRateLimit, PORTAL_CHAT_RATE_LIMIT_WINDOW_MS,
        PORTAL_CHAT_RATE_LIMIT_MAX_REQUESTS]
      simp [h0, show ¬(60000 ≤ t - t0) by omega, show ¬(20 ≤ c) by
        have h1 : (0:Int) ≤ ts.length := by positivity
        omega]
    simp only [runRateCalls, hstep]
    rw [ih (c + 1) (fun t ht => hts t (by simp [ht])) (by omega) (by omega)]
    simp only [List.replicate_succ, List.length_cons, Prod.mk.injEq, List.cons.injEq,
      Option.some.injEq, RateWindow.mk.injEq, true_and]
    push_cast
    omega

/-- C2: the rate limiter starts a fresh window (count 1, allow) when no
window is stored or the stored one is 60 s stale; increments and allows below
20 calls; at 20 calls denies without touching the stored state and reports
retryAfterSeconds = ceil((60000 - (now - windowStart)) / 1000) with minimum
1; hence the 21st call inside one active window is denied while the first 20
are allowed; the stored count never exceeds 20; and a storage failure fails
open. -/
theorem C2_rate_limiter :
    (∀ now : Int, checkPortalChatRateLimit true none now =
        { allowed := true, retryAfterSeconds := none, stored := some ⟨now, 1⟩ })
    ∧ (∀ (w : RateWindow) (now : Int), now - w.windowStart ≥ 60000 →
        checkPortalChatRateLimit true (some w) now =
          { allowed := true, retryAfterSeconds := none, stored := some ⟨now, 1⟩ })
    ∧ (∀ (w : RateWindow) (now : Int), w.windowStart ≠ 0 → now - w.windowStart < 60000 →
        w.count < 20 →
        checkPortalChatRateLimit true (some w) now =
          { allowed := true, retryAfterSeconds := none,
            stored := some ⟨w.windowStart, w.count + 1⟩ })
    ∧ (∀ (w : RateWindow) (now : Int), w.windowStart ≠ 0 → now - w.windowStart < 60000 →
        w.count ≥ 20 →
        checkPortalChatRateLimit true (some w) now =
          { allowed := false,
            retryAfterSeconds :=
              some (max 1 (((60000 - (now - w.windowStart)).toNat + 999) / 1000)),
            stored := some w })
    ∧ (∀ (t0 : Int) (ts : List Int) (tl : Int), t0 ≠ 0 → ts.length = 19 →
        (∀ t ∈ ts, t - t0 < 60000) → tl - t0 < 60000 →
        (runRateCalls (t0 :: ts ++ [tl]) none).1 = List.replicate 20 true ++ [false])
    ∧ (∀ (existing : Option RateWindow) (now : Int),
        (∀ w, existing = some w → w.count ≤ 20) →
        ∀ w2, (checkPortalChatRateLimit true existing now).stored = some w2 → w2.count ≤ 20)
    ∧ (∀ (existing : Option RateWindow) (now : Int),
        (checkPortalChatRateLimit false existing now).allowed = true) := by
  refine ⟨?_, ?_, ?_, ?_, ?_, ?_, ?_⟩
  · intro now
    simp [checkPortalChatRateLimit, PORTAL_CHAT_RATE_LIMIT_WINDOW_MS]
  · intro w now h
    simp only [checkPortalChatRateLimit, Bool.not_true, Bool.false_eq_true, if_false,
      PORTAL_CHAT_RATE_LIMIT_WINDOW_MS, PORTAL_CHAT_RATE_LIMIT_MAX_REQUESTS]
    split_ifs with h1 <;> try rfl
    all_goals
      exfalso
      simp only [Bool.or_eq_true, beq_iff_eq, decide_eq_true_eq, not_or] at h1
      omega
  · intro w now h0 hlt hcnt
    simp only [checkPortalChatRateLimit, Bool.not_true, Bool.false_eq_true, if_false,
      PORTAL_CHAT_RATE_LIMIT_WINDOW_MS, PORTAL_CHAT_RATE_LIMIT_MAX_REQUESTS]
    split_ifs with h1 h2
    · exfalso
      simp only [Bool.or_eq_true, beq_iff_eq, decide_eq_true_eq] at h1
      omega
    · exfalso
      omega
    · rfl
  · intro w now h0 hlt hcnt
    simp only [checkPortalChatRateLimit, Bool.not_true, Bool.false_eq_true, if_false,
      PORTAL_CHAT_RATE_LIMIT_WINDOW_MS, PORTAL_CHAT_RATE_LIMIT_MAX_REQUESTS]
    split_ifs with h1
    · exfalso
      simp only [Bool.or_eq_true, beq_iff_eq, decide_eq_true_eq] at h1
      omega
    · have hx : max (0 : Int) (60 * 1000 - (now - w.windowStart)) =
          60000 - (now - w.windowStart) := by
        rw [max_eq_right (by omega)]
        norm_num
      rw [hx]
  · intro t0 ts tl h0 hlen hts htl
    have hfirst : checkPortalChatRateLimit true none t0 =
        { allowed := true, retryAfterSeconds := none, stored := some ⟨t0, 1⟩ } := by
      simp [checkPortalChatRateLimit, PORTAL_CHAT_RATE_LIMIT_WINDOW_MS]
    simp only [runRateCalls, hfirst, List.append_eq]
    rw [runRateCalls_append, runRateCalls_active ts t0 1 h0 hts (by omega) (by omega)]
    have h20 : (1 : Int) + (ts.length : Int) = 20 := by
      rw [hlen]
      norm_num
    rw [h20]
    have hlast : checkPortalChatRateLimit true (some ⟨t0, 20⟩) tl =
        { allowed := false,
          retryAfterSeconds :=
            some (max 1 (((60000 - (tl - t0)).toNat + 999) / 1000)),
          stored := some ⟨t0, 20⟩ } := by
      simp only [checkPortalChatRateLimit, Bool.not_true, Bool.false_eq_true, if_false,
        PORTAL_CHAT_RATE_LIMIT_WINDOW_MS, PORTAL_CHAT_RATE_LIMIT_MAX_REQUESTS]
      split_ifs with h1 h2
      · exfalso
        simp only [Bool.or_eq_true, beq_iff_eq, decide_eq_true_eq] at h1
        omega
      · have hx : max (0 : Int) (60 * 1000 - (tl - t0)) = 60000 - (tl - t0) := by
          rw [max_eq_right (by omega)]
          norm_num
        rw [hx]
      · exfalso
        omega
    simp [runRateCalls, hlast, hlen, List.replicate_succ]
  · intro existing now hbound w2 hst
    cases existing with
    | none =>
      simp only [checkPortalChatRateLimit, Bool.not_true, Bool.false_eq_true, if_false,
        PORTAL_CHAT_RATE_LIMIT_WINDOW_MS, PORTAL_CHAT_RATE_LIMIT_MAX_REQUESTS] at hst
      split_ifs at hst <;> simp only [Option.some.injEq] at hst
      all_goals
        cases hst
        simp
    | some w =>
      have hw := hbound w rfl
      simp only [checkPortalChatRateLimit, Bool.not_true, Bool.false_eq_true, if_false,
        PORTAL_CHAT_RATE_LIMIT_WINDOW_MS, PORTAL_CHAT_RATE_LIMIT_MAX_REQUESTS] at hst
      split_ifs at hst with h1 h2 <;> simp only [Option.some.injEq] at hst <;> rw [hst.symm]
      · simp
      · exact hw
      · simp
        omega
  · intro existing now
    simp [checkPortalChatRateLimit]

/-- Concrete instantiations of C2_rate_limiter: the 21st call inside one
60-second window is denied after 20 allowed calls, a denied call reports the
ceiling-with-minimum-1 retry time, and a storage failure fails open. -/
theorem C2_rate_limiter_witness :
    (runRateCalls ((1 : Int) :: List.replicate 19 (2 : Int) ++ [(3 : Int)]) none).1
        = List.replicate 20 true ++ [false]
    ∧ checkPortalChatRateLimit true (some ⟨5, 20⟩) 30005 =
        { allowed := false, retryAfterSeconds := some 30, stored := some ⟨5, 20⟩ }
    ∧ (checkPortalChatRateLimit false (some ⟨5, 20⟩) 30005).allowed = true :=
  ⟨(C2_rate_limiter).2.2.2.2.1 1 (List.replicate 19 2) 3 (by decide) (by decide)
      (by decide) (by decide),
   by
    have h := (C2_rate_limiter).2.2.2.1 ⟨5, 20⟩ 30005 (by decide) (by decide) (by decide)
    simpa using h,
   (C2_rate_limiter).2.2.2.2.2.2 (some ⟨5, 20⟩) 30005⟩

/-- Helper: filtering by two exclusion lists in sequence is filtering by the
appended exclusion list. -/
theorem filter_notmem_append (l acc : List String) (a : String) :
    (l.filter (fun x => decide (x ∉ acc))).filter (fun x => decide (x ∉ [a])) =
      l.filter (fun x => decide (x ∉ acc ++ [a])) := by
  induction l with
  | nil => rfl
  | cons b l ih =>
    have hcomm : List.filter (fun x => !decide (x = a) && !decide (x ∈ acc)) l =
        List.filter (fun x => !decide (x ∈ acc) && !decide (x = a)) l := by
      apply List.filter_congr
      intro x _
      exact Bool.and_comm _ _
    by_cases hba : b = a <;> by_cases hbacc : b ∈ acc <;>
      simp [List.mem_append, hba, hbacc, ih, hcomm]

/-- Helper: the folded Set-insertion dedup splits off the accumulator: the
elements already seen are dropped, the rest dedups independently. -/
theorem dedupFirst_foldl_split (n : Nat) :
    ∀ (l acc : List String), l.length ≤ n →
      l.foldl (fun acc s => if s ∈ acc then acc else acc ++ [s]) acc =
        acc ++ dedupFirst (l.filter (fun x => decide (x ∉ acc))) := by
  induction n with
  | zero =>
    intro l acc h
    have : l = [] := List.length_eq_zero.mp (Nat.le_zero.mp h)
    subst this
    simp [dedupFirst]
  | succ n ih =>
    intro l acc h
    cases l with
    | nil => simp [dedupFirst]
    | cons a l =>
      by_cases ha : a ∈ acc
      · have : (a :: l).foldl (fun acc s => if s ∈ acc then acc else acc ++ [s]) acc =
            l.foldl (fun acc s => if s ∈ acc then acc else acc ++ [s]) acc := by
          simp [ha]
        rw [this, ih l acc (by simpa using Nat.le_of_succ_le_succ h)]
        simp [ha]
      · have hstep : (a :: l).foldl (fun acc s => if s ∈ acc then acc else acc ++ [s]) acc =
            l.foldl (fun acc s => if s ∈ acc then acc else acc ++ [s]) (acc ++ [a]) := by
          simp [ha]
        rw [hstep, ih l (acc ++ [a]) (by simpa using Nat.le_of_succ_le_succ h)]
        have hcons : (a :: l).filter (fun x => decide (x ∉ acc)) =
            a :: l.filter (fun x => decide (x ∉ acc)) := by
          simp [ha]
        rw [hcons]
        have hinner : dedupFirst (a :: l.filter (fun x => decide (x ∉ acc))) =
            a :: dedupFirst ((l.filter (fun x => decide (x ∉ acc))).filter
              (fun x => decide (x ∉ [a]))) := by
          have hfold : dedupFirst (a :: l.filter (fun x => decide (x ∉ acc))) =
              (l.filter (fun x => decide (x ∉ acc))).foldl
                (fun acc s => if s ∈ acc then acc else acc ++ [s]) [a] := by
            simp [dedupFirst]
          rw [hfold, ih (l.filter (fun x => decide (x ∉ acc))) [a]
            (le_trans (List.length_filter_le _ _) (by simpa using Nat.le_of_succ_le_succ h))]
          rfl
        rw [hinner, filter_notmem_append]
        simp

/-- Helper: the Set-insertion dedup keeps the first occurrence of the head
and drops its later duplicates, recursing on the remainder. -/
theorem dedupFirst_cons (a : String) (l : List String) :
    dedupFirst (a :: l) = a :: dedupFirst (l.filter (fun b => decide (b ≠ a))) := by
  have hfold : dedupFirst (a :: l) =
      l.foldl (fun acc s => if s ∈ acc then acc else acc ++ [s]) [a] := by
    simp [dedupFirst]
  rw [hfold, dedupFirst_foldl_split l.length l [a] le_rfl]
  have : l.filter (fun x => decide (x ∉ [a])) = l.filter (fun b => decide (b ≠ a)) := by
    apply List.filter_congr
    intro x _
    simp
  rw [this]
  rfl

/-- Helper: the Set-insertion dedup is an order-preserving subsequence, has
no duplicates, and keeps exactly the elements of its input. -/
theorem dedupFirst_props (n : Nat) :
    ∀ l : List String, l.length ≤ n →
      (dedupFirst l).Sublist l ∧ (∀ s, s ∈ dedupFirst l ↔ s ∈ l) ∧ (dedupFirst l).Nodup := by
  induction n with
  | zero =>
    intro l h
    have : l = [] := List.length_eq_zero.mp (Nat.le_zero.mp h)
    subst this
    refine ⟨by simp [dedupFirst], by simp [dedupFirst], by simp [dedupFirst]⟩
  | succ n ih =>
    intro l h
    cases l with
    | nil => refine ⟨by simp [dedupFirst], by simp [dedupFirst], by simp [dedupFirst]⟩
    | cons a l =>
      rw [dedupFirst_cons]
      have hlen : (l.filter (fun b => decide (b ≠ a))).length ≤ n :=
        le_trans (List.length_filter_le _ _) (by simpa using Nat.le_of_succ_le_succ h)
      obtain ⟨hsub, hmem, hnodup⟩ := ih (l.filter (fun b => decide (b ≠ a))) hlen
      refine ⟨?_, ?_, ?_⟩
      · exact List.Sublist.cons₂ a (hsub.trans (List.filter_sublist l))
      · intro s
        rw [List.mem_cons, hmem s, List.mem_filter, List.mem_cons]
        by_cases hs : s = a <;> simp [hs]
      · refine List.nodup_cons.mpr ⟨?_, hnodup⟩
        intro hmem2
        have := (hmem a).mp hmem2
        rw [List.mem_filter] at this
        simp at this

/-- C3: extraction returns exactly the regex matches of the upper-cased
message, de-duplicated keeping first occurrences: the result is the
Set-insertion dedup of the match list; it has no duplicates; it holds exactly
the matched tokens; it is an order-preserving subsequence of the match list
(so first occurrences keep their relative order, as the dedup recursion
dedupFirst (a :: l) = a :: dedupFirst (l minus later copies of a) shows); and
two messages equal after upper-casing extract identically, so extraction is
independent of letter case. -/
theorem C3_issue_key_extraction (m : String) :
    extractIssueKeysFromMessage m = dedupFirst (issueKeyTokens m)
    ∧ (extractIssueKeysFromMessage m).Nodup
    ∧ (∀ s, s ∈ extractIssueKeysFromMessage m ↔ s ∈ issueKeyTokens m)
    ∧ (extractIssueKeysFromMessage m).Sublist (issueKeyTokens m)
    ∧ (∀ (a : String) (l : List String),
        dedupFirst (a :: l) = a :: dedupFirst (l.filter (fun b => decide (b ≠ a))))
    ∧ (∀ m2 : String, jsToUpper m = jsToUpper m2 →
        extractIssueKeysFromMessage m = extractIssueKeysFromMessage m2) := by
  obtain ⟨hsub, hmem, hnodup⟩ :=
    dedupFirst_props (issueKeyTokens m).length (issueKeyTokens m) le_rfl
  refine ⟨rfl, hnodup, hmem, hsub, dedupFirst_cons, ?_⟩
  intro m2 hup
  unfold extractIssueKeysFromMessage issueKeyTokens
  rw [hup]

/-- Concrete instantiation of C3_issue_key_extraction on a message holding a
repeated key in mixed case and a second distinct key. -/
theorem C3_issue_key_extraction_witness :
    extractIssueKeysFromMessage "status of tj-1, TJ-1 and AB2-33 (ab2-33)"
        = dedupFirst (issueKeyTokens "status of tj-1, TJ-1 and AB2-33 (ab2-33)")
    ∧ extractIssueKeysFromMessage "status of tj-1, TJ-1 and AB2-33 (ab2-33)"
        = extractIssueKeysFromMessage "STATUS OF TJ-1, tj-1 AND ab2-33 (AB2-33)"
    ∧ extractIssueKeysFromMessage "status of tj-1, TJ-1 and AB2-33 (ab2-33)"
        = ["TJ-1", "AB2-33"] :=
  ⟨(C3_issue_key_extraction "status of tj-1, TJ-1 and AB2-33 (ab2-33)").1,
   (C3_issue_key_extraction "status of tj-1, TJ-1 and AB2-33 (ab2-33)").2.2.2.2.2
     "STATUS OF TJ-1, tj-1 AND ab2-33 (AB2-33)" (by decide),
   by decide⟩

/-- C9 counterexample: for the stored two-character key "ab" the masked form
produced by maskApiKey equals the cleartext key, and the admin-facing read
getLlmSettingsForAdmin returns exactly that cleartext in its apiKey field —
so "the masked form is never equal to the cleartext key" fails as stated. -/
theorem C9_mask_counterexample :
    maskApiKey "ab" = "ab"
    ∧ (getLlmSettingsForAdmin { provider := "openai", model := "m", apiKey := "ab" }).apiKey
        = "ab" := by
  exact ⟨by decide, by decide⟩

/-- C9 amended: the admin read exposes only the maskApiKey image of the
stored key in both apiKey and apiKeyMasked; trimmed keys of one or two
characters come back unchanged from the mask (the flaw in the original
claim); a trimmed key of length 3 to 8 whose characters after the first two
are not all asterisks differs from its mask; and a trimmed key longer than 8
whose 5th to 7th characters are not three dots differs from its mask. -/
theorem C9_mask_amended (rt : LlmRuntimeSettings) :
    ((getLlmSettingsForAdmin rt).apiKey = maskApiKey rt.apiKey
      ∧ (getLlmSettingsForAdmin rt).apiKeyMasked = maskApiKey rt.apiKey)
    ∧ (∀ key : String, jsTrim key = key → 1 ≤ key.toList.length → key.toList.length ≤ 2 →
        maskApiKey key = key)
    ∧ (∀ key : String, jsTrim key = key → 3 ≤ key.toList.length → key.toList.length ≤ 8 →
        (∃ c ∈ key.toList.drop 2, c ≠ '*') → maskApiKey key ≠ key)
    ∧ (∀ key : String, jsTrim key = key → 8 < key.toList.length →
        (key.toList.drop 4).take 3 ≠ ['.', '.', '.'] → maskApiKey key ≠ key) := by
  refine ⟨⟨rfl, rfl⟩, ?_, ?_, ?_⟩
  · intro key htrim h1 h2
    unfold maskApiKey
    rw [htrim]
    dsimp only
    split_ifs with hif1 hif2
    · exfalso
      cases h : key.toList with
      | nil => rw [h] at h1; simp at h1
      | cons a t => rw [h] at hif1; simp at hif1
    · rw [List.take_of_length_le h2, show key.toList.length - 2 = 0 by omega]
      rw [List.replicate_zero, List.append_nil]
      cases key
      rfl
    · exfalso
      omega
  · intro key htrim h3 h8 hex heq
    obtain ⟨c, hc, hstar⟩ := hex
    unfold maskApiKey at heq
    rw [htrim] at heq
    dsimp only at heq
    split_ifs at heq with hif1
    · cases h : key.toList with
      | nil => rw [h] at h3; simp at h3
      | cons a t => rw [h] at hif1; simp at hif1
    · have hdata : key.toList.take 2 ++ List.replicate (key.toList.length - 2) '*'
          = key.toList := congrArg String.toList heq
      have hlen2 : (key.toList.take 2).length = 2 := by
        rw [List.length_take]
        omega
      have hrep : key.toList.drop 2 = List.replicate (key.toList.length - 2) '*' := by
        conv_lhs => rw [← hdata]
        rw [List.drop_left' hlen2]
      exact hstar (List.eq_of_mem_replicate (hrep ▸ hc))
  · intro key htrim h8 hmid heq
    unfold maskApiKey at heq
    rw [htrim] at heq
    dsimp only at heq
    split_ifs at heq with hif1 hif2
    · cases h : key.toList with
      | nil => rw [h] at h8; simp at h8
      | cons a t => rw [h] at hif1; simp at hif1
    · omega
    · have hdata : (key.toList.take 4 ++ ['.', '.', '.'])
          ++ key.toList.drop (key.toList.length - 4) = key.toList := by
        have := congrArg String.toList heq
        simpa [List.append_assoc] using this
      have hlen4 : (key.toList.take 4).length = 4 := by
        rw [List.length_take]
        omega
      have hdrop : key.toList.drop 4 =
          ['.', '.', '.'] ++ key.toList.drop (key.toList.length - 4) := by
        conv_lhs => rw [← hdata]
        rw [List.append_assoc, List.drop_left' hlen4]
      apply hmid
      rw [hdrop]
      rfl

/-- Concrete instantiations of C9_mask_amended: an 8-character and a
12-character stored key each differ from their masked forms, and the admin
read exposes only the mask. -/
theorem C9_mask_amended_witness :
    ((getLlmSettingsForAdmin {
        provider := "openai",
        model := "m",
        apiKey := "abcdefgh" }).apiKey = maskApiKey "abcdefgh")
    ∧ maskApiKey "abcdefgh" ≠ "abcdefgh"
    ∧ maskApiKey "sk-abcd1234x" ≠ "sk-abcd1234x" :=
  ⟨(C9_mask_amended { provider := "openai", model := "m", apiKey := "abcdefgh" }).1.1,
   (C9_mask_amended { provider := "openai", model := "m", apiKey := "abcdefgh" }).2.2.1
     "abcdefgh" (by decide) (by decide) (by decide) ⟨'c', by decide, by decide⟩,
   (C9_mask_amended { provider := "openai", model := "m", apiKey := "sk-abcd1234x" }).2.2.2
     "sk-abcd1234x" (by decide) (by decide) (by decide)⟩

/-- C10: with a stored secret key, a valid provider and a model, a submitted
apiKey that is blank or exactly the masked form of the stored key leaves the
secret storage untouched (no secret write) while the non-secret provider and
model record is written; a different non-empty submitted key is written to
secret storage as the new key. -/
theorem C10_save_llm_settings (rt : LlmRuntimeSettings) (provider model : String)
    (apiKey : Option String)
    (hp : provider = "openai" ∨ provider = "claude") (hm : model ≠ "")
    (hk : rt.apiKey ≠ "") :
    ((jsTrim (apiKey.getD "") = "" ∨ jsTrim (apiKey.getD "") = maskApiKey rt.apiKey) →
        saveLlmSettingsSecurely rt provider model apiKey =
          .savedOut (provider, model) none provider model (maskApiKey rt.apiKey))
    ∧ (jsTrim (apiKey.getD "") ≠ "" → jsTrim (apiKey.getD "") ≠ maskApiKey rt.apiKey →
        saveLlmSettingsSecurely rt provider model apiKey =
          .savedOut (provider, model) (some (jsTrim (apiKey.getD "")))
            provider model (maskApiKey (jsTrim (apiKey.getD "")))) := by
  have hprov : (provider == "" || !(provider == "openai" || provider == "claude")) = false := by
    rcases hp with rfl | rfl <;> decide
  have hmodel : (model == "") = false := by
    simp [hm]
  constructor
  · intro hkeep
    have h1 : (jsTrim (apiKey.getD "") == "" ||
        jsTrim (apiKey.getD "") == maskApiKey rt.apiKey) = true := by
      rcases hkeep with h | h <;> simp [h]
    have h2 : (rt.apiKey != "") = true := by
      simp [hk]
    unfold saveLlmSettingsSecurely
    simp only [hprov, hmodel, Bool.false_eq_true, if_false]
    simp only [h1, h2, Bool.and_self, Bool.true_and, if_true, Bool.not_true,
      Bool.false_or, Bool.false_eq_true, if_false]
    simp [hk]
  · intro hne hmask
    have h1 : (jsTrim (apiKey.getD "") == "" ||
        jsTrim (apiKey.getD "") == maskApiKey rt.apiKey) = false := by
      simp [hne, hmask]
    unfold saveLlmSettingsSecurely
    simp only [hprov, hmodel, Bool.false_eq_true, if_false]
    simp only [h1, Bool.and_false, Bool.false_eq_true, if_false, Bool.not_false, Bool.true_or,
      if_true]
    simp [hne]

/-- Concrete instantiations of C10_save_llm_settings: echoing the masked
placeholder back, or a blank key, keeps the stored secret and still updates
provider and model; a fresh key is persisted. -/
theorem C10_save_llm_settings_witness :
    saveLlmSettingsSecurely { provider := "openai", model := "gpt", apiKey := "secretkey123" }
        "claude" "m2" (some "secr...y123")
      = .savedOut ("claude", "m2") none "claude" "m2" "secr...y123"
    ∧ saveLlmSettingsSecurely { provider := "openai", model := "gpt", apiKey := "secretkey123" }
        "claude" "m2" (some "")
      = .savedOut ("claude", "m2") none "claude" "m2" "secr...y123"
    ∧ saveLlmSettingsSecurely { provider := "openai", model := "gpt", apiKey := "secretkey123" }
        "openai" "m" (some "newkey")
      = .savedOut ("openai", "m") (some "newkey") "openai" "m" "ne****" :=
  ⟨((C10_save_llm_settings { provider := "openai", model := "gpt", apiKey := "secretkey123" }
      "claude" "m2" (some "secr...y123") (Or.inr rfl) (by decide) (by decide)).1
      (Or.inr (by decide))).trans (by decide),
   ((C10_save_llm_settings { provider := "openai", model := "gpt", apiKey := "secretkey123" }
      "claude" "m2" (some "") (Or.inr rfl) (by decide) (by decide)).1
      (Or.inl (by decide))).trans (by decide),
   ((C10_save_llm_settings { provider := "openai", model := "gpt", apiKey := "secretkey123" }
      "openai" "m" (some "newkey") (Or.inl rfl) (by decide) (by decide)).2
      (by decide) (by decide)).trans (by decide)⟩

/-- C4: the create call is first attempted with the collected attachment ids;
a failing first attempt retries exactly once with the ids stripped (and only
then — with no ids, or with the retry also failing, the error of the first
attempt is surfaced and nothing else runs); when the retry succeeds, a
second, independent attach call runs, and its failure only fills the warning
field of a still-successful result carrying the created issue key — the
ticket is never rolled back. -/
theorem C4_create_request_retry (ids : List String)
    (firstA fallbackA : CreateAttemptRes) (attach : AttachOutcome) :
    (firstA.ok = true →
      createPortalRequestSubmit ids firstA fallbackA attach =
        .successRes (firstA.parsedBody.getD {}).issueKey (firstA.parsedBody.getD {}).issueId
          (if (firstA.parsedBody.getD {}).webLink != "" then (firstA.parsedBody.getD {}).webLink
           else (firstA.parsedBody.getD {}).selfLink) "")
    ∧ (firstA.ok = false → ids = [] →
        createPortalRequestSubmit ids firstA fallbackA attach =
          .errorRes (formatCreateError firstA))
    ∧ (firstA.ok = false → fallbackA.ok = false →
        createPortalRequestSubmit ids firstA fallbackA attach =
          .errorRes (formatCreateError firstA))
    ∧ (∀ pb : ParsedCreateBody, firstA.ok = false → ids ≠ [] → fallbackA.ok = true →
        fallbackA.parsedBody = some pb → pb.issueKey ≠ "" →
        createPortalRequestSubmit ids firstA fallbackA .attachOk =
          .successRes pb.issueKey pb.issueId
            (if pb.webLink != "" then pb.webLink else pb.selfLink) "")
    ∧ (∀ (pb : ParsedCreateBody) (st : Int) (d : String),
        firstA.ok = false → ids ≠ [] → fallbackA.ok = true →
        fallbackA.parsedBody = some pb → pb.issueKey ≠ "" →
        createPortalRequestSubmit ids firstA fallbackA (.attachHttpError st d) =
          .successRes pb.issueKey pb.issueId
            (if pb.webLink != "" then pb.webLink else pb.selfLink)
            ("Request created, but attachments could not be added after creation (" ++
              toString st ++ " — " ++
              (if d != "" then d else "Unknown attachment error") ++ ")."))
    ∧ (∀ (pb : ParsedCreateBody) (msg : String),
        firstA.ok = false → ids ≠ [] → fallbackA.ok = true →
        fallbackA.parsedBody = some pb → pb.issueKey ≠ "" →
        createPortalRequestSubmit ids firstA fallbackA (.attachThrew msg) =
          .successRes pb.issueKey pb.issueId
            (if pb.webLink != "" then pb.webLink else pb.selfLink)
            ("Request created, but attachments could not be added after creation (" ++
              msg ++ ")."))
    ∧ (∀ (st : Int) (d msg : String),
        ("Request created, but attachments could not be added after creation (" ++
          toString st ++ " — " ++
          (if d != "" then d else "Unknown attachment error") ++ ").") ≠ ""
        ∧ ("Request created, but attachments could not be added after creation (" ++
            msg ++ ").") ≠ "") := by
  refine ⟨?_, ?_, ?_, ?_, ?_, ?_, ?_⟩
  · intro h
    simp [createPortalRequestSubmit, h]
  · intro h hids
    subst hids
    simp [createPortalRequestSubmit, h]
  · intro h hfb
    simp [createPortalRequestSubmit, h, hfb]
  · intro pb h hids hfb hpb hkey
    have hlen : decide (ids.length > 0) = true := by
      simp [List.length_pos, hids]
    simp [createPortalRequestSubmit, h, hids, hfb, hpb, hkey, hlen]
  · intro pb st d h hids hfb hpb hkey
    have hlen : decide (ids.length > 0) = true := by
      simp [List.length_pos, hids]
    simp [createPortalRequestSubmit, h, hids, hfb, hpb, hkey, hlen]
  · intro pb msg h hids hfb hpb hkey
    have hlen : decide (ids.length > 0) = true := by
      simp [List.length_pos, hids]
    simp [createPortalRequestSubmit, h, hids, hfb, hpb, hkey, hlen]
  · intro st d msg
    constructor <;>
      (intro hcontra
       have := congrArg String.length hcontra
       simp [String.length_append] at this
       exact absurd this.2 (by decide))

/-- Concrete instantiation of C4_create_request_retry: first attempt fails,
retry without ids succeeds, post-creation attach fails with HTTP 403 — still
a success result with the created key and a warning. -/
theorem C4_create_request_retry_witness :
    createPortalRequestSubmit ["tmp-1"]
        { ok := false, status := 400 }
        { ok := true, status := 201,
          parsedBody := some { issueKey := "AB-1", issueId := "100", webLink := "http" } }
        (.attachHttpError 403 "no permission")
      = .successRes "AB-1" "100" "http"
          "Request created, but attachments could not be added after creation (403 — no permission)." :=
  ((C4_create_request_retry ["tmp-1"] { ok := false, status := 400 }
      { ok := true, status := 201,
        parsedBody := some { issueKey := "AB-1", issueId := "100", webLink := "http" } }
      (.attachHttpError 403 "no permission")).2.2.2.2.1
    { issueKey := "AB-1", issueId := "100", webLink := "http" } 403 "no permission"
    rfl (by decide) rfl rfl (by decide)).trans (by decide)

/-- C6 counterexample: with items ["option 2", "beta"] and input "2", the
first item already satisfies the name test (its token contains "2"), yet
findItemByUserInput returns the second item, because the numeric branch is
checked before any per-element scan — so "the first element satisfying
either test wins" is false as stated. -/
theorem C6_first_match_counterexample :
    findItemByUserInput ["option 2", "beta"] "2" (fun s _ => [some s]) = some "beta"
    ∧ tokenMatchesInput (normalizeText (some "2")) [some "option 2"] = true
    ∧ some "beta" ≠ some "option 2" :=
  ⟨by decide, by decide, by decide⟩

/-- Helper: a successful canonical parse starts from a non-empty string. -/
theorem decToNat?_ne_empty {s : String} {k : Nat} (h : decToNat? s = some k) : s ≠ "" := by
  intro hs
  rw [hs, show decToNat? "" = (none : Option Nat) from rfl] at h
  exact Option.noConfusion h

/-- C6 amended: numeric positional matching takes strict priority over name
matching, not merely "first element satisfying either test": a bare canonical
number k with 1 ≤ k ≤ n returns the k-th item even when an earlier item
name-matches; every other non-empty input on a non-empty list returns the
first element, scanning stably left to right, whose normalized non-empty
tokens equal or contain the input; empty normalized input or an empty list
yields no match. -/
theorem C6_selection_matching {α : Type} (items : List α) (input : String)
    (tb : α → Nat → List (Option String)) :
    (∀ k, decToNat? (normalizeText (some input)) = some k → 1 ≤ k → k ≤ items.length →
      findItemByUserInput items input tb = items[k - 1]?)
    ∧ (normalizeText (some input) ≠ "" → items ≠ [] →
        (∀ k, decToNat? (normalizeText (some input)) = some k →
          ¬(1 ≤ k ∧ k ≤ items.length)) →
        findItemByUserInput items input tb =
          (items.enum.find? (fun p =>
            tokenMatchesInput (normalizeText (some input)) (tb p.2 p.1))).map (fun p => p.2))
    ∧ (normalizeText (some input) = "" → findItemByUserInput items input tb = none)
    ∧ (items = [] → findItemByUserInput items input tb = none) := by
  refine ⟨?_, ?_, ?_, ?_⟩
  · intro k hk h1 hn
    have hne : normalizeText (some input) ≠ "" := decToNat?_ne_empty hk
    have hitems : items.isEmpty = false := by
      rw [List.isEmpty_eq_false]
      intro h
      subst h
      simp at hn
      omega
    have hbeq : (normalizeText (some input) == "") = false := beq_eq_false_iff_ne.mpr hne
    simp only [findItemByUserInput, hbeq, hitems, Bool.or_self, Bool.false_eq_true, if_false,
      hk]
    simp [h1, hn]
  · intro hne hitems hk
    have hitems2 : items.isEmpty = false := List.isEmpty_eq_false.mpr hitems
    have hbeq : (normalizeText (some input) == "") = false := beq_eq_false_iff_ne.mpr hne
    simp only [findItemByUserInput, hbeq, hitems2, Bool.or_self, Bool.false_eq_true, if_false]
    cases hdk : decToNat? (normalizeText (some input)) with
    | none => rfl
    | some k =>
      have hnk := hk k hdk
      have hcond : (decide (1 ≤ k) && decide (k ≤ items.length)) = false := by
        rcases Nat.lt_or_ge k 1 with h | h
        · simp
          omega
        · rcases Nat.lt_or_ge items.length k with h2 | h2
          · simp
            omega
          · exact absurd ⟨h, h2⟩ hnk
      simp [hcond]
  · intro h
    have hbeq : (normalizeText (some input) == "") = true := by
      simp [h]
    simp [findItemByUserInput, hbeq]
  · intro h
    subst h
    simp [findItemByUserInput]

/-- Concrete instantiations of C6_selection_matching: the in-range bare
number "2" selects the second item; the name input "bet" selects by substring
scan; the out-of-range "3" falls through to the name scan and misses. -/
theorem C6_selection_matching_witness :
    findItemByUserInput ["option 2", "beta"] "2" (fun s _ => [some s]) = some "beta"
    ∧ findItemByUserInput ["option 2", "beta"] "BET " (fun s _ => [some s]) = some "beta"
    ∧ findItemByUserInput ["option 2", "beta"] "3" (fun s _ => [some s]) = none :=
  ⟨(C6_selection_matching ["option 2", "beta"] "2" (fun s _ => [some s])).1 2
      (by decide) (by decide) (by decide),
   ((C6_selection_matching ["option 2", "beta"] "BET " (fun s _ => [some s])).2.1
      (by decide) (by decide)
      (fun k hk => Option.noConfusion
        ((by decide : decToNat? (normalizeText (some "BET ")) = (none : Option Nat)).symm.trans
          hk))).trans (by decide),
   ((C6_selection_matching ["option 2", "beta"] "3" (fun s _ => [some s])).2.1
      (by decide) (by decide)
      (fun k hk => by
        have h3 : decToNat? (normalizeText (some "3")) = some 3 := by decide
        rw [h3] at hk
        cases hk
        decide)).trans (by decide)⟩

/-- C5: in the collect_fields stage, an invalid answer for the current field
— no matching option for a select/multi_select (or any option-bearing)
field, a non-numeric answer for a number field, or a blank answer for a
text-like field — returns the input flow state itself (same stage, same
currentFieldIndex, same answers, still active) and re-emits the option list
of that field (buildFieldOptions, empty for option-less fields) as a
re-prompt; no validation error ever resets or terminates the flow. -/
theorem C5_invalid_answer_reprompt (jsNum : String → Option Int)
    (flow : CreateFlow) (f : PortalField) (text : String)
    (hstage : flow.stage = .collect_fields)
    (hf : flow.fields[flow.currentFieldIndex]? = some f) :
    ((f.inputType = .select ∨ f.inputType = .multi_select ∨ f.validValues.length > 0) →
      findItemByUserInput f.validValues text
          (fun option _ => [some option.label, option.id, option.value]) = none →
      handleCollectFieldsInput jsNum flow text =
        (flow, [{ content := "Please choose a valid option for " ++ f.name ++ ".",
                  options := buildFieldOptions f }]))
    ∧ (f.inputType = .number → f.validValues = [] → jsNum text = none →
        handleCollectFieldsInput jsNum flow text =
          (flow, [{ content := "Please enter a numeric value for " ++ f.name ++ ".",
                    options := buildFieldOptions f }]))
    ∧ (f.inputType ≠ .select → f.inputType ≠ .multi_select → f.inputType ≠ .number →
        f.validValues = [] → jsTrim text = "" →
        handleCollectFieldsInput jsNum flow text =
          (flow, [{ content := "Please provide a value for " ++ f.name ++ ".",
                    options := buildFieldOptions f }])) := by
  refine ⟨?_, ?_, ?_⟩
  · intro hcase hmatch
    have hcond : (f.inputType == .select || f.inputType == .multi_select ||
        decide (f.validValues.length > 0)) = true := by
      rcases hcase with h | h | h <;> simp [h]
    simp [handleCollectFieldsInput, hf, hcond, hmatch]
  · intro htype hvv hnum
    have hbo : buildFieldOptions f = [] := by
      simp [buildFieldOptions, hvv]
    simp [handleCollectFieldsInput, hf, htype, hvv, hnum, hbo]
  · intro h1 h2 h3 hvv htrim
    have hsel : (f.inputType == .select) = false := beq_eq_false_iff_ne.mpr h1
    have hmul : (f.inputType == .multi_select) = false := beq_eq_false_iff_ne.mpr h2
    have hnum : (f.inputType == .number) = false := beq_eq_false_iff_ne.mpr h3
    have hbo : buildFieldOptions f = [] := by
      simp [buildFieldOptions, hvv]
    simp [handleCollectFieldsInput, hf, hsel, hmul, hnum, hvv, htrim, hbo]

/-- Fixture for the C5 witness: a select field with two options. -/
def c5SelectField : PortalField where
  fieldId := "prio"
  name := "Priority"
  inputType := .select
  validValues := [{ label := "High" }, { label := "Low" }]

/-- Fixture for the C5 witness: a mid-flow state sitting on the select field. -/
def c5SelectFlow : CreateFlow where
  active := true
  stage := .collect_fields
  fields := [c5SelectField]
  currentFieldIndex := 0
  answers := [("s", .textAns "x")]

/-- Fixture for the C5 witness: a number field. -/
def c5NumberField : PortalField where
  fieldId := "n"
  name := "Amount"
  inputType := .number

/-- Fixture for the C5 witness: a mid-flow state sitting on the number field. -/
def c5NumberFlow : CreateFlow where
  active := true
  stage := .collect_fields
  fields := [c5NumberField]
  currentFieldIndex := 0

/-- Fixture for the C5 witness: a plain text field. -/
def c5TextField : PortalField where
  fieldId := "s"
  name := "Summary"
  inputType := .text

/-- Fixture for the C5 witness: a mid-flow state sitting on the text field. -/
def c5TextFlow : CreateFlow where
  active := true
  stage := .collect_fields
  fields := [c5TextField]
  currentFieldIndex := 0

/-- Concrete instantiations of C5_invalid_answer_reprompt: an unmatched
select answer, a non-numeric number answer, and a blank text answer each
leave a concrete mid-flow state untouched and re-emit the field prompt. -/
theorem C5_invalid_answer_reprompt_witness :
    handleCollectFieldsInput (fun _ => none) c5SelectFlow "nope"
      = (c5SelectFlow,
         [{ content := "Please choose a valid option for Priority.",
            options := [{ label := "1. High", value := some "High" },
                        { label := "2. Low", value := some "Low" }] }])
    ∧ handleCollectFieldsInput (fun _ => none) c5NumberFlow "abc"
      = (c5NumberFlow, [{ content := "Please enter a numeric value for Amount." }])
    ∧ handleCollectFieldsInput (fun _ => none) c5TextFlow "   "
      = (c5TextFlow, [{ content := "Please provide a value for Summary." }]) :=
  ⟨((C5_invalid_answer_reprompt (fun _ => none) c5SelectFlow c5SelectField "nope"
      rfl rfl).1 (Or.inl rfl) (by decide)).trans (by decide),
   ((C5_invalid_answer_reprompt (fun _ => none) c5NumberFlow c5NumberField "abc"
      rfl rfl).2.1 rfl rfl rfl).trans (by decide),
   ((C5_invalid_answer_reprompt (fun _ => none) c5TextFlow c5TextField "   "
      rfl rfl).2.2 (by decide) (by decide) (by decide) rfl (by decide)).trans
     (by decide)⟩

/-- Fixture for the C7 counterexample: a raw field whose only valid value
defines a label, an id and an accountId. -/
def c7AccountIdField : RawField where
  fieldId := "assignee"
  name := "Assignee"
  validValues := some [RawOptionVal.objO
    { label := some "Alice", id := some "5", accountId := some "acc" }]

/-- C7 counterexample: the raw option defines id "5", its label matches the
answer case-insensitively, yet converting the label back to wire form yields
an accountId payload, not the id — normalizeOptionPayload prefers accountId
over id, so "yields a payload carrying the original option's id" is false as
stated for accountId-bearing options. -/
theorem C7_roundtrip_counterexample :
    (normalizePortalField c7AccountIdField).validValues =
      [{ label := "Alice", id := some "5", accountId := some "acc" }]
    ∧ convertFieldAnswerToRequestValue (fun _ => none)
        (normalizePortalField c7AccountIdField) (.strA " ALICE")
      = some (.payloadV (.byAccountId "acc"))
    ∧ OptionPayload.byAccountId "acc" ≠ OptionPayload.byId "5" :=
  ⟨by decide, by rfl, by decide⟩

/-- C7 amended: normalizing a raw field and converting an answer that
matchValidValueOption resolves (case-insensitively, first match wins) to one
of its normalized options yields the normalizeOptionPayload image of that
option — its accountId when present, else its id, else its value (the
original raw option's fields, which normalization preserves) — wrapped in a
one-element array exactly when the declared schema type is "array". -/
theorem C7_roundtrip_amended (jsNum : String → Option Int) (f : RawField)
    (ans : String) (o : ValidValueOption) :
    (∀ r : RawOptionObj, normalizeValidValueOption (.objO r) = some o →
      o.id = r.id ∧ o.accountId = r.accountId ∧
        o.value = (match r.value with | some v => some v | none => r.key))
    ∧ (matchValidValueOption (normalizePortalField f).validValues (jsTrim ans) = some o →
        convertFieldAnswerToRequestValue jsNum (normalizePortalField f) (.strA ans) =
          (if (normalizePortalField f).jiraSchema.type == "array"
           then some (.arrV [.payloadV (normalizeOptionPayload o.toPayloadSource)])
           else some (.payloadV (normalizeOptionPayload o.toPayloadSource))))
    ∧ (∀ a, o.accountId = some a → a ≠ "" →
        normalizeOptionPayload o.toPayloadSource = .byAccountId a)
    ∧ ((o.accountId = none ∨ o.accountId = some "") → ∀ i, o.id = some i → i ≠ "" →
        normalizeOptionPayload o.toPayloadSource = .byId i)
    ∧ ((o.accountId = none ∨ o.accountId = some "") → (o.id = none ∨ o.id = some "") →
        ∀ v, o.value = some v → v ≠ "" →
        normalizeOptionPayload o.toPayloadSource = .byValue v) := by
  refine ⟨?_, ?_, ?_, ?_, ?_⟩
  · intro r h
    simp only [normalizeValidValueOption] at h
    split at h
    · exact absurd h (by simp)
    · split_ifs at h
      simp only [Option.some.injEq] at h
      rw [← h]
      exact ⟨rfl, rfl, rfl⟩
  · intro hmatch
    have hne : jsTrim ans ≠ "" := by
      intro h
      rw [h] at hmatch
      rw [show matchValidValueOption (normalizePortalField f).validValues "" =
        (none : Option ValidValueOption) from rfl] at hmatch
      exact Option.noConfusion hmatch
    have hvv : (normalizePortalField f).validValues ≠ [] := by
      intro h
      rw [h] at hmatch
      rw [show matchValidValueOption [] (jsTrim ans) = (none : Option ValidValueOption) by
        simp [matchValidValueOption]] at hmatch
      exact Option.noConfusion hmatch
    have hlen : decide ((normalizePortalField f).validValues.length > 0) = true := by
      simp [List.length_pos, hvv]
    have hbeq : (jsTrim ans == "") = false := beq_eq_false_iff_ne.mpr hne
    simp only [convertFieldAnswerToRequestValue, hbeq, Bool.false_eq_true, if_false, hlen,
      if_true, hmatch]
    rw [if_pos (List.length_pos.mpr hvv)]
  · intro a ha hane
    unfold normalizeOptionPayload ValidValueOption.toPayloadSource
    simp [isPresent, ha, hane]
  · intro ha i hi hine
    have h1 : isPresent o.toPayloadSource.accountId = false := by
      rcases ha with h | h <;> simp [isPresent, ValidValueOption.toPayloadSource, h]
    have h2 : isPresent o.toPayloadSource.id = true := by
      simp [isPresent, ValidValueOption.toPayloadSource, hi, hine]
    unfold normalizeOptionPayload
    rw [h1, h2]
    simp [ValidValueOption.toPayloadSource, hi]
  · intro ha hid v hv hvne
    have h1 : isPresent o.toPayloadSource.accountId = false := by
      rcases ha with h | h <;> simp [isPresent, ValidValueOption.toPayloadSource, h]
    have h2 : isPresent o.toPayloadSource.id = false := by
      rcases hid with h | h <;> simp [isPresent, ValidValueOption.toPayloadSource, h]
    have h3 : isPresent o.toPayloadSource.value = true := by
      simp [isPresent, ValidValueOption.toPayloadSource, hv, hvne]
    unfold normalizeOptionPayload
    rw [h1, h2, h3]
    simp [ValidValueOption.toPayloadSource, hv]

/-- Fixture for the C7 witness: a raw multi-select field whose option defines
an id and no accountId. -/
def c7IdField : RawField where
  fieldId := "component"
  name := "Component"
  validValues := some [RawOptionVal.objO { label := some "Backend", id := some "7" }]
  jiraSchema := some { type := some "array" }

/-- Concrete instantiation of C7_roundtrip_amended: converting the label
"backend" through the normalized field yields the original option id "7",
wrapped in a singleton array because the schema type is "array". -/
theorem C7_roundtrip_amended_witness :
    convertFieldAnswerToRequestValue (fun _ => none)
        (normalizePortalField c7IdField) (.strA "backend")
      = some (.arrV [.payloadV (.byId "7")]) :=
  ((C7_roundtrip_amended (fun _ => none) c7IdField "backend"
      { label := "Backend", id := some "7" }).2.1 (by decide)).trans rfl

end Jsmai
